import Mathlib

/-!
# Portfolio-Website: `script.js`

A shallow embedding of the particle-network animation (`NetworkAnimation`) and of the
typed-text rotator (`TypingAnimation`) of `src/script.js`.

JavaScript numbers are modelled in exact arithmetic: every definition is written once for an
arbitrary linearly ordered field `K`. At `K = ℚ` the definitions evaluate; at `K = ℝ`
(with `Real.sqrt` for `Math.sqrt`) they speak about Euclidean distances. The canvas
dimensions are natural numbers: `canvas.width` and `canvas.height` are unsigned integers
of the host, assigned from `window.innerWidth` and `window.innerHeight`.
-/

namespace Portfolio

/-! ## Data model -/

/-- One entry of `this.particles`: the object literal pushed by `createParticles`. -/
structure Particle (K : Type) where
  x : K
  y : K
  vx : K
  vy : K
  radius : K
deriving DecidableEq

/-- The drawing surface: `this.canvas.width` and `this.canvas.height`. -/
structure Canvas where
  width : ℕ
  height : ℕ
deriving DecidableEq

/-- The field `this.mouse`. -/
structure Mouse (K : Type) where
  x : K
  y : K
deriving DecidableEq

/-- The mutable fields of a `NetworkAnimation` instance (the drawing context apart). -/
structure NetworkAnimation (K : Type) where
  canvas : Canvas
  particles : List (Particle K)
  mouse : Mouse K
deriving DecidableEq

section Field

variable {K : Type} [LinearOrderedField K]

/-! ## `updateParticles` -/

/-- The callback that `updateParticles` passes to `forEach` (lines 83-94): integrate,
reflect, then clamp. -/
def updateParticle (canvas : Canvas) (particle : Particle K) : Particle K :=
  let x := particle.x + particle.vx
  let y := particle.y + particle.vy
  let vx := if x < 0 ∨ x > (canvas.width : K) then particle.vx * -1 else particle.vx
  let vy := if y < 0 ∨ y > (canvas.height : K) then particle.vy * -1 else particle.vy
  { x := max 0 (min (canvas.width : K) x)
    y := max 0 (min (canvas.height : K) y)
    vx := vx
    vy := vy
    radius := particle.radius }

/-- The method `updateParticles()` (lines 81-96): every particle is updated in place, in
list order. -/
def NetworkAnimation.updateParticles (a : NetworkAnimation K) : NetworkAnimation K :=
  { a with particles := a.particles.map (updateParticle a.canvas) }

/-! ## `createParticles`, `resizeCanvas`, `init` and the resize listener -/

/-- The constant `particleCount` of `createParticles` (line 67): for natural-number
dimensions `Math.floor(w * h / 15000)` is the integer quotient. -/
def particleCount (canvas : Canvas) : ℕ :=
  (canvas.width * canvas.height) / 15000

/-- The object literal pushed in iteration `i` of the loop of `createParticles`
(lines 71-77). `random n` is the value returned by the `n`-th call of `Math.random()`
made by this run of the loop; every iteration makes five calls, in field order. -/
def newParticle (canvas : Canvas) (random : ℕ → K) (i : ℕ) : Particle K :=
  { x := random (5 * i) * (canvas.width : K)
    y := random (5 * i + 1) * (canvas.height : K)
    vx := (random (5 * i + 2) - 0.5) * 0.5
    vy := (random (5 * i + 3) - 0.5) * 0.5
    radius := random (5 * i + 4) * 2 + 1 }

/-- The method `createParticles()` (lines 66-79): the list is reset to `[]` and then
filled by the counting loop. -/
def NetworkAnimation.createParticles (a : NetworkAnimation K) (random : ℕ → K) :
    NetworkAnimation K :=
  { a with particles := (List.range (particleCount a.canvas)).map (newParticle a.canvas random) }

/-- The method `resizeCanvas()` (lines 61-64). -/
def NetworkAnimation.resizeCanvas (a : NetworkAnimation K) (innerWidth innerHeight : ℕ) :
    NetworkAnimation K :=
  { a with canvas := { width := innerWidth, height := innerHeight } }

/-- The method `init()` (lines 56-59). -/
def NetworkAnimation.init (a : NetworkAnimation K) (innerWidth innerHeight : ℕ)
    (random : ℕ → K) : NetworkAnimation K :=
  (a.resizeCanvas innerWidth innerHeight).createParticles random

/-- The `resize` listener registered by `setupEventListeners` (lines 161-164). -/
def NetworkAnimation.onResize (a : NetworkAnimation K) (innerWidth innerHeight : ℕ)
    (random : ℕ → K) : NetworkAnimation K :=
  (a.resizeCanvas innerWidth innerHeight).createParticles random

/-- The `mousemove` listener registered by `setupEventListeners` (lines 166-169). -/
def NetworkAnimation.onMouseMove (a : NetworkAnimation K) (clientX clientY : K) :
    NetworkAnimation K :=
  { a with mouse := { x := clientX, y := clientY } }

/-! ## Drawing -/

/-- One stroked segment: the `beginPath`, `moveTo`, `lineTo`, `strokeStyle`, `lineWidth`,
`stroke` group of `drawConnections` and `drawMouseConnections`. The colour is always
`rgba(0, 212, 170, alpha)`. -/
structure Line (K : Type) where
  x1 : K
  y1 : K
  x2 : K
  y2 : K
  alpha : K
  lineWidth : K
deriving DecidableEq

/-- One filled circle of `drawParticles`: `arc(x, y, radius, 0, 2π)` filled with
`#00d4aa`. -/
structure Disc (K : Type) where
  x : K
  y : K
  radius : K
deriving DecidableEq

/-- What one call of `animate` puts on the canvas, in order. -/
inductive Drawn (K : Type) where
  | clearRect (x y w h : K)
  | line (l : Line K)
  | disc (d : Disc K)
deriving DecidableEq

/-- The alpha channel of a particle-particle stroke (lines 108, 117, 121) as a function of
the distance: `opacity * 0.3` with `opacity = (maxDistance - distance) / maxDistance`. -/
def connectionAlpha (distance : K) : K :=
  let maxDistance : K := 150
  let opacity := (maxDistance - distance) / maxDistance
  opacity * 0.3

/-- The guarded block of the inner loop of `drawConnections` (lines 116-124), for the
particles `p = particles[i]` and `q = particles[j]` at the computed `distance`. -/
def connectionLine (p q : Particle K) (distance : K) : Option (Line K) :=
  let maxDistance : K := 150
  if distance < maxDistance then
    some { x1 := p.x, y1 := p.y, x2 := q.x, y2 := q.y
           alpha := connectionAlpha distance, lineWidth := 1 }
  else none

/-- The index pairs visited by the nested loops of `drawConnections` (lines 110-111), in
order: `i` from `0` below `n`, and for each `i`, `j` from `i + 1` below `n`. -/
def pairIndices (n : ℕ) : List (ℕ × ℕ) :=
  (List.range n).flatMap fun i => (List.range' (i + 1) (n - (i + 1))).map fun j => (i, j)

/-- The body of the inner loop of `drawConnections` (lines 112-124) for one index pair.
`sqrt` is `Math.sqrt`. -/
def connectionAt (sqrt : K → K) (particles : List (Particle K)) (ij : ℕ × ℕ) :
    Option (Line K) :=
  match particles[ij.1]?, particles[ij.2]? with
  | some p, some q =>
    let dx := p.x - q.x
    let dy := p.y - q.y
    let distance := sqrt (dx * dx + dy * dy)
    connectionLine p q distance
  | _, _ => none

/-- The method `drawConnections()` (lines 107-127): the strokes it issues, in order. -/
def drawConnections (sqrt : K → K) (particles : List (Particle K)) : List (Line K) :=
  (pairIndices particles.length).filterMap (connectionAt sqrt particles)

/-- The alpha channel of a particle-mouse stroke (lines 130, 138, 142) as a function of
the distance. -/
def mouseAlpha (distance : K) : K :=
  let maxDistance : K := 200
  let opacity := (maxDistance - distance) / maxDistance
  opacity * 0.5

/-- The guarded block of the callback of `drawMouseConnections` (lines 137-145). -/
def mouseLine (mouse : Mouse K) (particle : Particle K) (distance : K) : Option (Line K) :=
  let maxDistance : K := 200
  if distance < maxDistance then
    some { x1 := particle.x, y1 := particle.y, x2 := mouse.x, y2 := mouse.y
           alpha := mouseAlpha distance, lineWidth := 2 }
  else none

/-- The method `drawMouseConnections()` (lines 129-147). -/
def drawMouseConnections (sqrt : K → K) (mouse : Mouse K) (particles : List (Particle K)) :
    List (Line K) :=
  particles.filterMap fun particle =>
    let dx := mouse.x - particle.x
    let dy := mouse.y - particle.y
    let distance := sqrt (dx * dx + dy * dy)
    mouseLine mouse particle distance

/-- The method `drawParticles()` (lines 98-105). -/
def drawParticles (particles : List (Particle K)) : List (Disc K) :=
  particles.map fun particle => { x := particle.x, y := particle.y, radius := particle.radius }

/-- The drawing and state part of `animate()` (lines 150-155) when the context is usable:
the updated animation and what was drawn. -/
def NetworkAnimation.frame (sqrt : K → K) (a : NetworkAnimation K) :
    NetworkAnimation K × List (Drawn K) :=
  let a1 := a.updateParticles
  (a1,
    Drawn.clearRect 0 0 (a.canvas.width : K) (a.canvas.height : K)
      :: (drawConnections sqrt a1.particles).map Drawn.line
      ++ (drawParticles a1.particles).map Drawn.disc
      ++ (drawMouseConnections sqrt a1.mouse a1.particles).map Drawn.line)

end Field

/-! ## Initialisation and failure handling -/

/-- A thrown JavaScript value. -/
inductive JSError where
  | typeError (message : String)
  | hostError (message : String)
deriving DecidableEq

/-- What `canvas.getContext("2d")` does on the page at hand (line 47): it throws, it
returns `null`, or it returns a usable drawing context. -/
inductive ContextResult where
  | throws (e : JSError)
  | null
  | context
deriving DecidableEq

/-- The host primitives read by the animation: `Math.sqrt`, the successive results of
`Math.random()`, the viewport size, whether `getElementById("networkCanvas")` finds an
element, and the behaviour of `getContext`. -/
structure Host (K : Type) where
  sqrt : K → K
  random : ℕ → K
  innerWidth : ℕ
  innerHeight : ℕ
  canvasFound : Bool
  getContext : ContextResult

/-- The part of the page that the script can change and that the claims observe. -/
structure Page (K : Type) where
  /-- The messages passed to `console.log`, oldest first. -/
  console : List String
  /-- Whether a canvas element was created and inserted by line 34. -/
  canvasInserted : Bool
  /-- The size of the canvas element. -/
  canvas : Canvas
  /-- The live `NetworkAnimation` instance, reachable from its scheduled callbacks. -/
  animation : Option (NetworkAnimation K)
  /-- The number of callbacks handed to `requestAnimationFrame`. -/
  frameRequests : ℕ
  /-- The event types of the listeners added through `window.addEventListener`. -/
  windowListeners : List String
  /-- Everything drawn on the canvas, oldest first. -/
  drawn : List (Drawn K)

/-- The result of running a piece of the script: the page afterwards, and the value thrown
if it did not complete normally. -/
structure Outcome (K : Type) where
  page : Page K
  thrown : Option JSError

/-- Sequencing of statements: the next statement runs only if nothing was thrown. -/
def Outcome.andThen {K : Type} (r : Outcome K) (next : Page K → Outcome K) : Outcome K :=
  match r.thrown with
  | none => next r.page
  | some _ => r

/-- The call `console.log(message)`. -/
def consoleLog {K : Type} (message : String) (page : Page K) : Page K :=
  { page with console := page.console ++ [message] }

section Field

variable {K : Type} [LinearOrderedField K]

/-- The constructor of `NetworkAnimation` (lines 45-54), run on the canvas of the page. The
first use of the context is `this.ctx.clearRect` in `animate` (line 150), which throws a
`TypeError` when `getContext` returned `null`; `requestAnimationFrame` (line 157) and
`setupEventListeners` (line 53) come after it. -/
def NetworkAnimation.new (host : Host K) (page : Page K) : Outcome K :=
  match host.getContext with
  | ContextResult.throws e => { page := page, thrown := some e }
  | ContextResult.null =>
    let a : NetworkAnimation K :=
      NetworkAnimation.init { canvas := page.canvas, particles := [], mouse := { x := 0, y := 0 } }
        host.innerWidth host.innerHeight host.random
    { page := { page with canvas := a.canvas }
      thrown := some (JSError.typeError "Cannot read properties of null (reading clearRect)") }
  | ContextResult.context =>
    let a : NetworkAnimation K :=
      NetworkAnimation.init { canvas := page.canvas, particles := [], mouse := { x := 0, y := 0 } }
        host.innerWidth host.innerHeight host.random
    let shown := a.frame host.sqrt
    { page :=
        { page with
          canvas := a.canvas
          animation := some shown.1
          drawn := page.drawn ++ shown.2
          frameRequests := page.frameRequests + 1
          windowListeners := page.windowListeners ++ ["resize", "mousemove"] }
      thrown := none }

/-- The `try` block of `initializeNetworkAnimation` (lines 19-38). A canvas created by
line 22 has the default size 300 x 150. -/
def initializeNetworkAnimationTry (host : Host K) (page : Page K) : Outcome K :=
  if host.canvasFound then
    NetworkAnimation.new host page
  else
    NetworkAnimation.new host
      { consoleLog "Canvas not found, creating one..." page with
        canvasInserted := true
        canvas := { width := 300, height := 150 } }

/-- The function `initializeNetworkAnimation` (lines 17-42): the `try` block, and the
`catch` clause that logs the thrown value. -/
def initializeNetworkAnimation (host : Host K) (page : Page K) : Outcome K :=
  let r := initializeNetworkAnimationTry host page
  match r.thrown with
  | none => r
  | some _ => { page := consoleLog "Network animation failed:" r.page, thrown := none }

/-- The other functions called by the `DOMContentLoaded` handler. They only touch the
document, so they are kept abstract. -/
structure Initialisers (K : Type) where
  ensureContentVisibility : Page K → Outcome K
  initializeTypingAnimation : Page K → Outcome K
  initializeNavigation : Page K → Outcome K
  initializeScrollAnimations : Page K → Outcome K
  initializeContactForm : Page K → Outcome K

/-- The `DOMContentLoaded` handler (lines 2-14). -/
def onDOMContentLoaded (host : Host K) (o : Initialisers K) (page : Page K) : Outcome K :=
  (((((o.ensureContentVisibility (consoleLog "DOM loaded, initializing..." page)).andThen
    (initializeNetworkAnimation host)).andThen
    o.initializeTypingAnimation).andThen
    o.initializeNavigation).andThen
    o.initializeScrollAnimations).andThen
    o.initializeContactForm

end Field

/-! ## `TypingAnimation` -/

/-- A JavaScript string, as the list of its UTF-16 code units. -/
abbrev JSString := List Char

/-- The method `String.prototype.substring(indexStart, indexEnd)`: both arguments are
clamped into `[0, length]` and swapped if they are out of order. -/
def substring (s : JSString) (indexStart indexEnd : ℤ) : JSString :=
  let a := (max 0 (min (s.length : ℤ) indexStart)).toNat
  let b := (max 0 (min (s.length : ℤ) indexEnd)).toNat
  (s.drop (min a b)).take (max a b - min a b)

/-- The fields of a `TypingAnimation` instance; `textContent` is `element.textContent`. -/
structure TypingAnimation where
  textContent : JSString
  texts : List JSString
  speed : ℚ
  textIndex : ℕ
  charIndex : ℤ
  isDeleting : Bool
deriving DecidableEq

/-- The method `type()` (lines 198-225): the instance afterwards and the delay handed to
`setTimeout`. When `texts[textIndex]` is `undefined`, line 202 or 205 throws. -/
def TypingAnimation.type (s : TypingAnimation) : Except JSError (TypingAnimation × ℚ) :=
  match s.texts[s.textIndex]? with
  | none =>
    Except.error (JSError.typeError "Cannot read properties of undefined (reading substring)")
  | some currentText =>
    let textContent :=
      if s.isDeleting then substring currentText 0 (s.charIndex - 1)
      else substring currentText 0 (s.charIndex + 1)
    let charIndex := if s.isDeleting then s.charIndex - 1 else s.charIndex + 1
    let typeSpeed := if s.isDeleting then s.speed / 2 else s.speed
    if ¬ s.isDeleting ∧ charIndex = (currentText.length : ℤ) then
      Except.ok
        ({ s with textContent := textContent, charIndex := charIndex, isDeleting := true }, 2000)
    else if s.isDeleting ∧ charIndex = 0 then
      Except.ok
        ({ s with
            textContent := textContent
            charIndex := charIndex
            isDeleting := false
            textIndex := (s.textIndex + 1) % s.texts.length }, 500)
    else
      Except.ok ({ s with textContent := textContent, charIndex := charIndex }, typeSpeed)

/-- One firing of the timer, as seen from outside: the text shown and the delay until the
next firing. -/
structure Tick where
  textContent : JSString
  delay : ℚ
deriving DecidableEq

/-- The first `k` calls of `type()`, each made by the timer set by the one before: the final
instance and the ticks in order. -/
def TypingAnimation.run : ℕ → TypingAnimation → Except JSError (TypingAnimation × List Tick)
  | 0, s => Except.ok (s, [])
  | k + 1, s =>
    match s.type with
    | Except.error e => Except.error e
    | Except.ok (s1, delay) =>
      match TypingAnimation.run k s1 with
      | Except.error e => Except.error e
      | Except.ok (s2, ticks) =>
        Except.ok (s2, { textContent := s1.textContent, delay := delay } :: ticks)

/-- The constructor of `TypingAnimation` (lines 187-196) up to its call of `type()`;
`textContent` is the text of the element before the animation starts. -/
def TypingAnimation.new (textContent : JSString) (texts : List JSString) (speed : ℚ) :
    TypingAnimation :=
  { textContent := textContent, texts := texts, speed := speed
    textIndex := 0, charIndex := 0, isDeleting := false }

/-! ## Sample inputs and closed forms used in the statements -/

/-- A sample state: a 300 x 150 surface with one particle about to cross
the right edge and one resting on it with inward velocity. -/
def sampleAnimation : NetworkAnimation ℚ :=
  { canvas := { width := 300, height := 150 }
    particles :=
      [ { x := 2999 / 10, y := 75, vx := 1 / 4, vy := -1 / 4, radius := 1 },
        { x := 300, y := 0, vx := -1 / 4, vy := 1 / 8, radius := 2 } ]
    mouse := { x := 0, y := 0 } }

/-- A page on which nothing has happened yet, with a canvas of the default size. -/
def freshPage : Page ℚ :=
  { console := [], canvasInserted := false, canvas := { width := 300, height := 150 }
    animation := none, frameRequests := 0, windowListeners := [], drawn := [] }

/-- A host with a 300 x 150 viewport and no canvas element, on which `getContext` returns
`null`; `sqrt` is never called on that path. -/
def nullContextHost : Host ℚ :=
  { sqrt := fun x => x, random := fun _ => 1 / 2, innerWidth := 300, innerHeight := 150
    canvasFound := false, getContext := ContextResult.null }

/-- The instance after `j` calls of `type()` in the cycle of the phrase `t = texts[idx]`,
started at character 0 with `textContent = tc`; used for `j ≤ 2 * t.length`. -/
def cycleState (tc : JSString) (texts : List JSString) (sp : ℚ) (idx : ℕ) (t : JSString)
    (j : ℕ) : TypingAnimation :=
  if j < t.length then
    { textContent := if j = 0 then tc else t.take j, texts := texts, speed := sp
      textIndex := idx, charIndex := (j : ℤ), isDeleting := false }
  else if j < 2 * t.length then
    { textContent := t.take (2 * t.length - j), texts := texts, speed := sp
      textIndex := idx, charIndex := ((2 * t.length - j : ℕ) : ℤ), isDeleting := true }
  else
    { textContent := [], texts := texts, speed := sp
      textIndex := (idx + 1) % texts.length, charIndex := 0, isDeleting := false }

/-- The tick produced by call number `i + 1` of that cycle. -/
def cycleTick (sp : ℚ) (t : JSString) (i : ℕ) : Tick :=
  if i + 1 < t.length then { textContent := t.take (i + 1), delay := sp }
  else if i + 1 = t.length then { textContent := t.take (i + 1), delay := 2000 }
  else if i + 1 < 2 * t.length then
    { textContent := t.take (2 * t.length - (i + 1)), delay := sp / 2 }
  else { textContent := [], delay := 500 }

/-! # Theorems -/

section Field

variable {K : Type} [LinearOrderedField K]

/-! ## Helper lemmas on `updateParticles` -/

theorem clamp_bounds (w : ℕ) (x : K) :
    0 ≤ max 0 (min (w : K) x) ∧ max 0 (min (w : K) x) ≤ (w : K) :=
  ⟨le_max_left _ _, max_le (Nat.cast_nonneg w) (min_le_left _ _)⟩

theorem updateParticles_canvas (a : NetworkAnimation K) :
    a.updateParticles.canvas = a.canvas := rfl

theorem updateParticle_vx_abs (c : Canvas) (p : Particle K) :
    |(updateParticle c p).vx| = |p.vx| := by
  unfold updateParticle
  dsimp only
  split_ifs <;> simp

theorem updateParticle_vy_abs (c : Canvas) (p : Particle K) :
    |(updateParticle c p).vy| = |p.vy| := by
  unfold updateParticle
  dsimp only
  split_ifs <;> simp

theorem iterate_updateParticles (a : NetworkAnimation K) (k : ℕ) :
    (NetworkAnimation.updateParticles^[k] a).canvas = a.canvas ∧
    (NetworkAnimation.updateParticles^[k] a).particles
      = a.particles.map (updateParticle a.canvas)^[k] := by
  induction k generalizing a with
  | zero => simp
  | succ k ih =>
    rw [Function.iterate_succ_apply, Function.iterate_succ]
    obtain ⟨h1, h2⟩ := ih a.updateParticles
    refine ⟨h1, ?_⟩
    rw [h2]
    simp [NetworkAnimation.updateParticles, List.map_map]

theorem iterate_updateParticle_invariant (c : Canvas) (p : Particle K) (k : ℕ) :
    |((updateParticle c)^[k] p).vx| = |p.vx| ∧ |((updateParticle c)^[k] p).vy| = |p.vy| ∧
      ((updateParticle c)^[k] p).radius = p.radius := by
  induction k with
  | zero => simp
  | succ k ih =>
    rw [Function.iterate_succ_apply']
    obtain ⟨h1, h2, h3⟩ := ih
    refine ⟨?_, ?_, ?_⟩
    · rw [updateParticle_vx_abs, h1]
    · rw [updateParticle_vy_abs, h2]
    · rw [← h3]; rfl

/-! ## Claims on `updateParticles` -/

/-- C1: after one call of `updateParticles`, every particle lies in the surface:
`0 ≤ x ≤ width` and `0 ≤ y ≤ height`, whatever the particles were before. -/
theorem updateParticles_within_bounds (a : NetworkAnimation K) :
    ∀ p ∈ a.updateParticles.particles,
      0 ≤ p.x ∧ p.x ≤ (a.canvas.width : K) ∧ 0 ≤ p.y ∧ p.y ≤ (a.canvas.height : K) := by
  intro p hp
  simp only [NetworkAnimation.updateParticles, List.mem_map] at hp
  obtain ⟨p0, -, rfl⟩ := hp
  exact ⟨(clamp_bounds _ _).1, (clamp_bounds _ _).2, (clamp_bounds _ _).1, (clamp_bounds _ _).2⟩

/-- C6: over any number of consecutive `updateParticles` steps every particle keeps `|vx|`,
`|vy|` and its radius; one step leaves a velocity component as it is or negates it; and the
new `x` and `vx` depend only on the old `x`, `vx` and the width (likewise for `y`). -/
theorem updateParticles_preserves_speed_and_radius (a : NetworkAnimation K) (k : ℕ) :
    List.Forall₂ (fun p q => |q.vx| = |p.vx| ∧ |q.vy| = |p.vy| ∧ q.radius = p.radius)
        a.particles (NetworkAnimation.updateParticles^[k] a).particles ∧
      (∀ p ∈ a.particles,
        ((updateParticle a.canvas p).vx = p.vx ∨ (updateParticle a.canvas p).vx = -p.vx) ∧
        ((updateParticle a.canvas p).vy = p.vy ∨ (updateParticle a.canvas p).vy = -p.vy) ∧
        (updateParticle a.canvas p).radius = p.radius) ∧
      (∀ (c d : Canvas) (p q : Particle K), c.width = d.width → p.x = q.x → p.vx = q.vx →
        (updateParticle c p).vx = (updateParticle d q).vx ∧
        (updateParticle c p).x = (updateParticle d q).x) ∧
      (∀ (c d : Canvas) (p q : Particle K), c.height = d.height → p.y = q.y → p.vy = q.vy →
        (updateParticle c p).vy = (updateParticle d q).vy ∧
        (updateParticle c p).y = (updateParticle d q).y) := by
  refine ⟨?_, ?_, ?_, ?_⟩
  · rw [(iterate_updateParticles a k).2, List.forall₂_map_right_iff]
    exact List.forall₂_same.mpr fun p _ => iterate_updateParticle_invariant a.canvas p k
  · intro p _
    refine ⟨?_, ?_, rfl⟩
    · unfold updateParticle
      dsimp only
      split_ifs <;> simp
    · unfold updateParticle
      dsimp only
      split_ifs <;> simp
  · intro c d p q hc hx hv
    simp [updateParticle, hc, hx, hv]
  · intro c d p q hc hy hv
    simp [updateParticle, hc, hy, hv]

end Field

/-! ## Instances on the sample state -/

/-- Instance of C1 on the sample state: the first particle ends on the right edge. -/
theorem updateParticles_within_bounds_witness :
    ({ x := 300, y := 299 / 4, vx := -1 / 4, vy := -1 / 4, radius := 1 } : Particle ℚ)
        ∈ sampleAnimation.updateParticles.particles ∧
      ((0 : ℚ) ≤ 300 ∧ (300 : ℚ) ≤ (sampleAnimation.canvas.width : ℚ) ∧
        (0 : ℚ) ≤ 299 / 4 ∧ (299 / 4 : ℚ) ≤ (sampleAnimation.canvas.height : ℚ)) := by
  have hmem : ({ x := 300, y := 299 / 4, vx := -1 / 4, vy := -1 / 4, radius := 1 } : Particle ℚ)
      ∈ sampleAnimation.updateParticles.particles := by
    simp [sampleAnimation, NetworkAnimation.updateParticles, updateParticle]
    norm_num
  exact ⟨hmem, updateParticles_within_bounds sampleAnimation _ hmem⟩

/-- Instance of C6 on the sample state, over seven steps. -/
theorem updateParticles_preserves_speed_and_radius_witness :
    List.Forall₂ (fun p q => |q.vx| = |p.vx| ∧ |q.vy| = |p.vy| ∧ q.radius = p.radius)
      sampleAnimation.particles (NetworkAnimation.updateParticles^[7] sampleAnimation).particles :=
  (updateParticles_preserves_speed_and_radius sampleAnimation 7).1

section Field

variable {K : Type} [LinearOrderedField K]

/-! ## `createParticles` and the stroke alpha -/

theorem createParticles_particles (a : NetworkAnimation K) (random : ℕ → K) :
    (a.createParticles random).particles
      = (List.range (a.canvas.width * a.canvas.height / 15000)).map
          (newParticle a.canvas random) := rfl

/-- C4: `createParticles` leaves exactly `floor(width * height / 15000)` particles, all of
them computed from the canvas and the random draws alone, whatever the list held before;
the same holds for the resize listener, which first takes the new dimensions, and for
`init`; a 300 x 150 surface gives 3 particles. -/
theorem createParticles_count (a : NetworkAnimation K) (random : ℕ → K)
    (innerWidth innerHeight : ℕ) :
    (a.createParticles random).particles.length = a.canvas.width * a.canvas.height / 15000 ∧
      (∀ prior : List (Particle K),
        ({ a with particles := prior }.createParticles random).particles
          = ({ a with particles := [] }.createParticles random).particles) ∧
      (a.onResize innerWidth innerHeight random).canvas
          = { width := innerWidth, height := innerHeight } ∧
      (a.onResize innerWidth innerHeight random).particles.length
          = innerWidth * innerHeight / 15000 ∧
      (∀ b : NetworkAnimation K,
        (b.onResize innerWidth innerHeight random).particles
          = (a.onResize innerWidth innerHeight random).particles) ∧
      (a.init innerWidth innerHeight random).particles.length
          = innerWidth * innerHeight / 15000 ∧
      (a.onResize 300 150 random).particles.length = 3 := by
  refine ⟨?_, ?_, rfl, ?_, ?_, ?_, ?_⟩
  · simp [createParticles_particles]
  · intro prior
    simp only [NetworkAnimation.createParticles]
  · simp [NetworkAnimation.onResize, createParticles_particles, NetworkAnimation.resizeCanvas]
  · intro b
    simp only [NetworkAnimation.onResize, NetworkAnimation.createParticles,
      NetworkAnimation.resizeCanvas]
  · simp [NetworkAnimation.init, createParticles_particles, NetworkAnimation.resizeCanvas]
  · simp only [NetworkAnimation.onResize, NetworkAnimation.createParticles,
      NetworkAnimation.resizeCanvas, List.length_map, List.length_range]
    norm_num [particleCount]

end Field

section Field

variable {K : Type} [LinearOrderedField K]

/-! ## `initializeNetworkAnimation` -/

theorem new_of_unavailable (host : Host K) (page : Page K)
    (h : host.getContext = ContextResult.null ∨ ∃ e, host.getContext = ContextResult.throws e) :
    (∃ e, (NetworkAnimation.new host page).thrown = some e) ∧
      (NetworkAnimation.new host page).page.frameRequests = page.frameRequests ∧
      (NetworkAnimation.new host page).page.windowListeners = page.windowListeners ∧
      (NetworkAnimation.new host page).page.animation = page.animation ∧
      (NetworkAnimation.new host page).page.drawn = page.drawn := by
  unfold NetworkAnimation.new
  rcases h with h | ⟨e, h⟩ <;> rw [h] <;> exact ⟨⟨_, rfl⟩, rfl, rfl, rfl, rfl⟩

theorem initializeNetworkAnimation_thrown (host : Host K) (page : Page K) :
    (initializeNetworkAnimation host page).thrown = none := by
  unfold initializeNetworkAnimation
  dsimp only
  split
  · assumption
  · rfl

/-- C8: when `getContext` throws or returns `null`, `initializeNetworkAnimation` completes
normally, having logged the failure, with no animation frame requested, no window listener
added, no instance kept and nothing drawn; whatever statement follows the call runs, so the
`DOMContentLoaded` handler goes on with the four remaining initialisers. -/
theorem initializeNetworkAnimation_degrades (host : Host K) (page : Page K)
    (h : host.getContext = ContextResult.null ∨ ∃ e, host.getContext = ContextResult.throws e) :
    (initializeNetworkAnimation host page).thrown = none ∧
      (initializeNetworkAnimation host page).page.frameRequests = page.frameRequests ∧
      (initializeNetworkAnimation host page).page.windowListeners = page.windowListeners ∧
      (initializeNetworkAnimation host page).page.animation = page.animation ∧
      (initializeNetworkAnimation host page).page.drawn = page.drawn ∧
      (initializeNetworkAnimation host page).page.console.getLast?
        = some "Network animation failed:" ∧
      (∀ next : Page K → Outcome K,
        (initializeNetworkAnimation host page).andThen next
          = next (initializeNetworkAnimation host page).page) ∧
      (∀ (o : Initialisers K) (p1 : Page K),
        o.ensureContentVisibility (consoleLog "DOM loaded, initializing..." page)
            = { page := p1, thrown := none } →
        onDOMContentLoaded host o page
          = (((o.initializeTypingAnimation (initializeNetworkAnimation host p1).page).andThen
              o.initializeNavigation).andThen
              o.initializeScrollAnimations).andThen
              o.initializeContactForm) := by
  have hseq : ∀ (q : Page K) (next : Page K → Outcome K),
      (initializeNetworkAnimation host q).andThen next
        = next (initializeNetworkAnimation host q).page := by
    intro q next
    unfold Outcome.andThen
    rw [initializeNetworkAnimation_thrown]
  have key : ∀ q : Page K, (∃ e, (initializeNetworkAnimationTry host q).thrown = some e) ∧
      (initializeNetworkAnimationTry host q).page.frameRequests = q.frameRequests ∧
      (initializeNetworkAnimationTry host q).page.windowListeners = q.windowListeners ∧
      (initializeNetworkAnimationTry host q).page.animation = q.animation ∧
      (initializeNetworkAnimationTry host q).page.drawn = q.drawn := by
    intro q
    unfold initializeNetworkAnimationTry
    split
    · exact new_of_unavailable host q h
    · exact new_of_unavailable host _ h
  obtain ⟨⟨e, he⟩, h1, h2, h3, h4⟩ := key page
  have hpage : (initializeNetworkAnimation host page).page
      = consoleLog "Network animation failed:" (initializeNetworkAnimationTry host page).page := by
    unfold initializeNetworkAnimation
    dsimp only
    rw [he]
  refine ⟨initializeNetworkAnimation_thrown host page, ?_, ?_, ?_, ?_, ?_, hseq page, ?_⟩
  · rw [hpage]; exact h1
  · rw [hpage]; exact h2
  · rw [hpage]; exact h3
  · rw [hpage]; exact h4
  · rw [hpage]; simp [consoleLog]
  · intro o p1 hp1
    unfold onDOMContentLoaded
    rw [hp1]
    have : ({ page := p1, thrown := none } : Outcome K).andThen (initializeNetworkAnimation host)
        = initializeNetworkAnimation host p1 := rfl
    rw [this, hseq]

end Field

/-- Instance of C8: no canvas element, `getContext` returns `null`, on a fresh page. -/
theorem initializeNetworkAnimation_degrades_witness :
    (initializeNetworkAnimation nullContextHost freshPage).thrown = none ∧
      (initializeNetworkAnimation nullContextHost freshPage).page.frameRequests = 0 ∧
      (initializeNetworkAnimation nullContextHost freshPage).page.windowListeners = [] ∧
      (initializeNetworkAnimation nullContextHost freshPage).page.console
        = ["Canvas not found, creating one...", "Network animation failed:"] := by
  obtain ⟨h1, h2, h3, -⟩ :=
    initializeNetworkAnimation_degrades nullContextHost freshPage (Or.inl rfl)
  exact ⟨h1, h2, h3, by simp [initializeNetworkAnimation, initializeNetworkAnimationTry,
    NetworkAnimation.new, nullContextHost, freshPage, consoleLog]⟩

/-! ## Helper lemmas on `TypingAnimation` -/

theorem substring_zero (s : JSString) (k : ℕ) : substring s 0 (k : ℤ) = s.take k := by
  unfold substring
  have ha : (max 0 (min (s.length : ℤ) 0)).toNat = 0 := by simp
  have hb : (max 0 (min (s.length : ℤ) (k : ℤ))).toNat = min s.length k := by
    rw [max_eq_right (le_min (Int.ofNat_nonneg _) (Int.ofNat_nonneg _))]
    omega
  simp only [ha, hb, Nat.zero_min, Nat.zero_max, List.drop_zero, Nat.sub_zero]
  rw [List.take_eq_take]
  omega

/-- One call of `type()` while typing, at character position `c`. -/
theorem type_forward (tc : JSString) (texts : List JSString) (sp : ℚ) (idx : ℕ) (t : JSString)
    (c : ℕ) (ht : texts[idx]? = some t) :
    TypingAnimation.type
        { textContent := tc, texts := texts, speed := sp, textIndex := idx
          charIndex := (c : ℤ), isDeleting := false }
      = Except.ok
          ({ textContent := t.take (c + 1), texts := texts, speed := sp, textIndex := idx
             charIndex := ((c + 1 : ℕ) : ℤ), isDeleting := decide (c + 1 = t.length) },
           if c + 1 = t.length then 2000 else sp) := by
  have hs : substring t 0 ((c : ℤ) + 1) = t.take (c + 1) := by
    have := substring_zero t (c + 1)
    rwa [Nat.cast_add, Nat.cast_one] at this
  have hc : ((c : ℤ) + 1 = (t.length : ℤ)) ↔ c + 1 = t.length := by omega
  simp only [TypingAnimation.type, ht]
  by_cases h : c + 1 = t.length
  · simp [hs, hc, h]
  · simp [hs, hc, h]

/-- One call of `type()` while deleting, at character position `c + 1`. -/
theorem type_backward (tc : JSString) (texts : List JSString) (sp : ℚ) (idx : ℕ) (t : JSString)
    (c : ℕ) (ht : texts[idx]? = some t) :
    TypingAnimation.type
        { textContent := tc, texts := texts, speed := sp, textIndex := idx
          charIndex := ((c + 1 : ℕ) : ℤ), isDeleting := true }
      = Except.ok
          ({ textContent := t.take c, texts := texts, speed := sp
             textIndex := if c = 0 then (idx + 1) % texts.length else idx
             charIndex := (c : ℤ), isDeleting := decide (c ≠ 0) },
           if c = 0 then 500 else sp / 2) := by
  have hs : substring t 0 (((c + 1 : ℕ) : ℤ) - 1) = t.take c := by
    have := substring_zero t c
    rwa [show (c : ℤ) = ((c + 1 : ℕ) : ℤ) - 1 by push_cast; ring] at this
  have hc : (((c + 1 : ℕ) : ℤ) - 1 = 0) ↔ c = 0 := by omega
  have hc2 : ((c + 1 : ℕ) : ℤ) - 1 = (c : ℤ) := by push_cast; ring
  simp only [TypingAnimation.type, ht]
  have hs1 : substring t 0 (c : ℤ) = t.take c := substring_zero t c
  have hs0 : substring t 0 0 = [] := by simpa using substring_zero t 0
  by_cases h : c = 0
  · simp [hs0, hc, h]
  · simp [hs, hs1, hc, h, hc2]

theorem run_succ_of (j : ℕ) (s s1 s2 : TypingAnimation) (tr : List Tick) (d : ℚ)
    (h1 : s.run j = Except.ok (s1, tr)) (h2 : s1.type = Except.ok (s2, d)) :
    s.run (j + 1) = Except.ok (s2, tr ++ [{ textContent := s2.textContent, delay := d }]) := by
  induction j generalizing s tr with
  | zero =>
    simp only [TypingAnimation.run, Except.ok.injEq, Prod.mk.injEq] at h1
    obtain ⟨rfl, rfl⟩ := h1
    simp [TypingAnimation.run, h2]
  | succ j ih =>
    rw [TypingAnimation.run] at h1
    rw [TypingAnimation.run]
    cases hty : s.type with
    | error e => rw [hty] at h1; simp at h1
    | ok r =>
      obtain ⟨s1a, d1⟩ := r
      rw [hty] at h1
      dsimp only at h1 ⊢
      cases hr : TypingAnimation.run j s1a with
      | error e => rw [hr] at h1; simp at h1
      | ok r1 =>
        obtain ⟨s3, tr1⟩ := r1
        rw [hr] at h1
        simp only [Except.ok.injEq, Prod.mk.injEq] at h1
        obtain ⟨rfl, rfl⟩ := h1
        rw [ih s1a tr1 hr]
        simp

theorem cycle_step (tc : JSString) (texts : List JSString) (sp : ℚ) (idx : ℕ) (t : JSString)
    (ht : texts[idx]? = some t) (j : ℕ) (hj : j < 2 * t.length) :
    (cycleState tc texts sp idx t j).type
      = Except.ok (cycleState tc texts sp idx t (j + 1), (cycleTick sp t j).delay) ∧
    (cycleState tc texts sp idx t (j + 1)).textContent = (cycleTick sp t j).textContent := by
  by_cases h1 : j + 1 < t.length
  · have h0 : j < t.length := by omega
    simp only [cycleState, cycleTick, h0, h1, if_true]
    rw [type_forward _ _ _ _ t j ht]
    have : ¬ (j + 1 = t.length) := by omega
    simp [this]
  · by_cases h2 : j + 1 = t.length
    · have h0 : j < t.length := by omega
      have h3 : j + 1 < 2 * t.length := by omega
      have h4 : 2 * t.length - (j + 1) = j + 1 := by omega
      simp only [cycleState, cycleTick, h0, h1, h3, h4, if_true, if_false]
      rw [type_forward _ _ _ _ t j ht]
      simp [h2]
    · have h0 : ¬ j < t.length := by omega
      by_cases h3 : j + 1 < 2 * t.length
      · obtain ⟨c, hc⟩ : ∃ c, 2 * t.length - j = c + 1 := ⟨2 * t.length - j - 1, by omega⟩
        have h4 : 2 * t.length - (j + 1) = c := by omega
        have h5 : c ≠ 0 := by omega
        simp only [cycleState, cycleTick, h0, h1, h2, h3, hj, h4, hc, if_true, if_false]
        rw [type_backward _ _ _ _ t c ht]
        simp [h5]
      · have hc : 2 * t.length - j = 0 + 1 := by omega
        simp only [cycleState, cycleTick, h0, h1, h2, h3, hj, hc, if_true, if_false]
        rw [type_backward _ _ _ _ t 0 ht]
        simp

theorem run_cycle (tc : JSString) (texts : List JSString) (sp : ℚ) (idx : ℕ) (t : JSString)
    (ht : texts[idx]? = some t) (hne : t ≠ []) (j : ℕ) (hj : j ≤ 2 * t.length) :
    TypingAnimation.run j
        { textContent := tc, texts := texts, speed := sp, textIndex := idx
          charIndex := 0, isDeleting := false }
      = Except.ok (cycleState tc texts sp idx t j, (List.range j).map (cycleTick sp t)) := by
  have hpos : 0 < t.length := List.length_pos.mpr hne
  induction j with
  | zero => simp [TypingAnimation.run, cycleState, hpos]
  | succ j ih =>
    obtain ⟨h1, h2⟩ := cycle_step tc texts sp idx t ht j (by omega)
    rw [run_succ_of j _ _ _ _ _ (ih (by omega)) h1, h2, List.range_succ, List.map_append]
    rfl

theorem cycleTick_typing (sp : ℚ) (t : JSString) (i : ℕ) (hi : i < t.length) :
    cycleTick sp t i
      = { textContent := t.take (i + 1), delay := if i + 1 = t.length then 2000 else sp } := by
  unfold cycleTick
  by_cases h : i + 1 = t.length
  · have : ¬ i + 1 < t.length := by omega
    simp [h]
  · have : i + 1 < t.length := by omega
    simp [h, this]

theorem cycleTick_deleting (sp : ℚ) (t : JSString) (i : ℕ) (hi : i < t.length) :
    cycleTick sp t (t.length + i)
      = { textContent := t.take (t.length - (i + 1))
          delay := if i + 1 = t.length then 500 else sp / 2 } := by
  unfold cycleTick
  have h1 : ¬ t.length + i + 1 < t.length := by omega
  have h2 : ¬ t.length + i + 1 = t.length := by omega
  by_cases h : i + 1 = t.length
  · have h3 : ¬ t.length + i + 1 < 2 * t.length := by omega
    have h4 : t.length - (i + 1) = 0 := by omega
    simp only [h1, h2, h3, h, h4, if_true, if_false, List.take_zero, Nat.sub_self]
  · have h3 : t.length + i + 1 < 2 * t.length := by omega
    have h4 : 2 * t.length - (t.length + i + 1) = t.length - (i + 1) := by omega
    simp only [h1, h2, h3, h, h4, if_true, if_false]

theorem run_empty (tc : JSString) (texts : List JSString) (sp : ℚ) (idx : ℕ)
    (ht : texts[idx]? = some []) (k : ℕ) :
    TypingAnimation.run (k + 1)
        { textContent := tc, texts := texts, speed := sp, textIndex := idx
          charIndex := 0, isDeleting := false }
      = Except.ok
          ({ textContent := [], texts := texts, speed := sp, textIndex := idx
             charIndex := ((k + 1 : ℕ) : ℤ), isDeleting := false },
           List.replicate (k + 1) { textContent := [], delay := sp }) := by
  induction k with
  | zero =>
    have := type_forward tc texts sp idx [] 0 ht
    simp only [Nat.cast_zero] at this
    simp [TypingAnimation.run, this]
  | succ k ih =>
    have h := type_forward [] texts sp idx [] (k + 1) ht
    rw [run_succ_of (k + 1) _ _ _ _ _ ih h]
    simp [List.replicate_succ']

theorem run_add (j k : ℕ) (s : TypingAnimation) :
    s.run (j + k)
      = match s.run j with
        | Except.error e => Except.error e
        | Except.ok (s1, tr1) =>
          match s1.run k with
          | Except.error e => Except.error e
          | Except.ok (s2, tr2) => Except.ok (s2, tr1 ++ tr2) := by
  induction j generalizing s with
  | zero =>
    rw [Nat.zero_add]
    simp only [TypingAnimation.run]
    cases s.run k with
    | error e => rfl
    | ok r => rfl
  | succ j ih =>
    rw [Nat.add_right_comm]
    simp only [TypingAnimation.run]
    cases s.type with
    | error e => rfl
    | ok r =>
      obtain ⟨s1a, d⟩ := r
      dsimp only
      rw [ih s1a]
      cases TypingAnimation.run j s1a with
      | error e => rfl
      | ok r1 =>
        obtain ⟨s1, tr1⟩ := r1
        dsimp only
        cases TypingAnimation.run k s1 with
        | error e => rfl
        | ok r2 => rfl

/-! ## Claims on `TypingAnimation` -/

/-- C7: from character 0 of a non-empty phrase `t` of length `n`, `2n` calls of `type()`
show the prefixes of lengths `1, ..., n` and then `n-1, ..., 0`, with delays 100 ms while
typing (2000 ms on the call that completes `t`) and 50 ms while deleting (500 ms on the call
that empties it), and end at character 0 of the next phrase, not deleting. For the single
phrase "AB" the texts are "A", "AB", "A", "" and the next four calls repeat them. -/
theorem type_cycle (tc : JSString) (texts : List JSString) (idx : ℕ) (t : JSString)
    (ht : texts[idx]? = some t) (hne : t ≠ []) :
    TypingAnimation.run (2 * t.length)
        { textContent := tc, texts := texts, speed := 100, textIndex := idx
          charIndex := 0, isDeleting := false }
      = Except.ok
          ({ textContent := [], texts := texts, speed := 100
             textIndex := (idx + 1) % texts.length, charIndex := 0, isDeleting := false },
           (List.range t.length).map (fun i =>
              { textContent := t.take (i + 1)
                delay := if i + 1 = t.length then 2000 else 100 })
            ++ (List.range t.length).map (fun i =>
              { textContent := t.take (t.length - (i + 1))
                delay := if i + 1 = t.length then 500 else 50 })) ∧
    TypingAnimation.run 4 (TypingAnimation.new tc [['A', 'B']] 100)
      = Except.ok
          (TypingAnimation.new [] [['A', 'B']] 100,
           [ { textContent := ['A'], delay := 100 }, { textContent := ['A', 'B'], delay := 2000 },
             { textContent := ['A'], delay := 50 }, { textContent := [], delay := 500 } ]) ∧
    TypingAnimation.run 8 (TypingAnimation.new tc [['A', 'B']] 100)
      = Except.ok
          (TypingAnimation.new [] [['A', 'B']] 100,
           [ { textContent := ['A'], delay := 100 }, { textContent := ['A', 'B'], delay := 2000 },
             { textContent := ['A'], delay := 50 }, { textContent := [], delay := 500 },
             { textContent := ['A'], delay := 100 }, { textContent := ['A', 'B'], delay := 2000 },
             { textContent := ['A'], delay := 50 }, { textContent := [], delay := 500 } ]) := by
  have general : ∀ (tc : JSString) (texts : List JSString) (idx : ℕ) (t : JSString),
      texts[idx]? = some t → t ≠ [] →
      TypingAnimation.run (2 * t.length)
        { textContent := tc, texts := texts, speed := 100, textIndex := idx
          charIndex := 0, isDeleting := false }
      = Except.ok
          ({ textContent := [], texts := texts, speed := 100
             textIndex := (idx + 1) % texts.length, charIndex := 0, isDeleting := false },
           (List.range t.length).map (fun i =>
              { textContent := t.take (i + 1)
                delay := if i + 1 = t.length then 2000 else 100 })
            ++ (List.range t.length).map (fun i =>
              { textContent := t.take (t.length - (i + 1))
                delay := if i + 1 = t.length then 500 else 50 })) := by
    intro tc texts idx t ht hne
    rw [run_cycle tc texts 100 idx t ht hne (2 * t.length) le_rfl]
    have hstate : cycleState tc texts 100 idx t (2 * t.length)
        = { textContent := [], texts := texts, speed := 100
            textIndex := (idx + 1) % texts.length, charIndex := 0, isDeleting := false } := by
      have h1 : ¬ 2 * t.length < t.length := by omega
      simp [cycleState, h1]
    have hticks : (List.range (2 * t.length)).map (cycleTick 100 t)
        = (List.range t.length).map (fun i =>
              ({ textContent := t.take (i + 1)
                 delay := if i + 1 = t.length then 2000 else 100 } : Tick))
          ++ (List.range t.length).map (fun i =>
              ({ textContent := t.take (t.length - (i + 1))
                 delay := if i + 1 = t.length then 500 else 50 } : Tick)) := by
      rw [two_mul, List.range_add, List.map_append, List.map_map]
      congr 1
      · apply List.map_congr_left
        intro i hi
        exact cycleTick_typing 100 t i (List.mem_range.mp hi)
      · apply List.map_congr_left
        intro i hi
        rw [Function.comp_apply, cycleTick_deleting 100 t i (List.mem_range.mp hi)]
        norm_num
    rw [hstate, hticks]
  have ab : ∀ tc : JSString, TypingAnimation.run 4 (TypingAnimation.new tc [['A', 'B']] 100)
      = Except.ok
          (TypingAnimation.new [] [['A', 'B']] 100,
           [ { textContent := ['A'], delay := 100 }, { textContent := ['A', 'B'], delay := 2000 },
             { textContent := ['A'], delay := 50 }, { textContent := [], delay := 500 } ]) := by
    intro tc
    have h := general tc [['A', 'B']] 0 ['A', 'B'] rfl (by simp)
    simpa [TypingAnimation.new, List.range_succ] using h
  refine ⟨general tc texts idx t ht hne, ab tc, ?_⟩
  have h8 : TypingAnimation.run 8 (TypingAnimation.new tc [['A', 'B']] 100)
      = match TypingAnimation.run 4 (TypingAnimation.new tc [['A', 'B']] 100) with
        | Except.error e => Except.error e
        | Except.ok (s1, tr1) =>
          match TypingAnimation.run 4 s1 with
          | Except.error e => Except.error e
          | Except.ok (s2, tr2) => Except.ok (s2, tr1 ++ tr2) := by
    exact run_add 4 4 _
  rw [h8, ab tc]
  dsimp only
  rw [ab []]
  rfl

/-- C10: when the current phrase is empty, `k ≥ 1` calls of `type()` from character 0 leave
`charIndex = k`, not deleting, on the same phrase, having shown "" with a 100 ms delay each
time, so `charIndex` exceeds the length 0 of the phrase; whereas throughout the `2n` calls
of the cycle of a non-empty phrase of length `n`, `0 ≤ charIndex ≤ n`. -/
theorem type_empty_phrase (tc : JSString) (texts : List JSString) (idx : ℕ)
    (ht : texts[idx]? = some []) (k : ℕ) (hk : 1 ≤ k) :
    TypingAnimation.run k
        { textContent := tc, texts := texts, speed := 100, textIndex := idx
          charIndex := 0, isDeleting := false }
      = Except.ok
          ({ textContent := [], texts := texts, speed := 100, textIndex := idx
             charIndex := (k : ℤ), isDeleting := false },
           List.replicate k { textContent := [], delay := 100 }) ∧
    ((([] : JSString).length : ℤ) < (k : ℤ)) ∧
    (∀ (tc1 : JSString) (texts1 : List JSString) (idx1 : ℕ) (t : JSString),
      texts1[idx1]? = some t → t ≠ [] → ∀ j : ℕ, j ≤ 2 * t.length →
        ∃ s tr, TypingAnimation.run j
            { textContent := tc1, texts := texts1, speed := 100, textIndex := idx1
              charIndex := 0, isDeleting := false } = Except.ok (s, tr) ∧
          0 ≤ s.charIndex ∧ s.charIndex ≤ (t.length : ℤ)) := by
  refine ⟨?_, ?_, ?_⟩
  · obtain ⟨m, rfl⟩ : ∃ m, k = m + 1 := ⟨k - 1, by omega⟩
    exact run_empty tc texts 100 idx ht m
  · simp only [List.length_nil, Nat.cast_zero]
    exact_mod_cast hk
  · intro tc1 texts1 idx1 t ht1 hne j hj
    refine ⟨_, _, run_cycle tc1 texts1 100 idx1 t ht1 hne j hj, ?_⟩
    by_cases h1 : j < t.length
    · simp only [cycleState, h1, if_true]
      exact ⟨Int.ofNat_nonneg _, by exact_mod_cast h1.le⟩
    · by_cases h2 : j < 2 * t.length
      · simp only [cycleState, h1, h2, if_true, if_false]
        refine ⟨Int.ofNat_nonneg _, ?_⟩
        have : 2 * t.length - j ≤ t.length := by omega
        exact_mod_cast this
      · simp only [cycleState, h1, h2, if_false]
        exact ⟨le_rfl, Int.ofNat_nonneg _⟩

/-- Instance of C7: the second of two phrases, "ABC". -/
theorem type_cycle_witness :
    TypingAnimation.run (2 * ['A', 'B', 'C'].length)
        { textContent := [], texts := [['H', 'i'], ['A', 'B', 'C']], speed := 100, textIndex := 1
          charIndex := 0, isDeleting := false }
      = Except.ok
          ({ textContent := [], texts := [['H', 'i'], ['A', 'B', 'C']], speed := 100
             textIndex := (1 + 1) % [['H', 'i'], ['A', 'B', 'C']].length
             charIndex := 0, isDeleting := false },
           (List.range ['A', 'B', 'C'].length).map (fun i =>
              { textContent := ['A', 'B', 'C'].take (i + 1)
                delay := if i + 1 = ['A', 'B', 'C'].length then 2000 else 100 })
            ++ (List.range ['A', 'B', 'C'].length).map (fun i =>
              { textContent := ['A', 'B', 'C'].take (['A', 'B', 'C'].length - (i + 1))
                delay := if i + 1 = ['A', 'B', 'C'].length then 500 else 50 })) :=
  (type_cycle [] [['H', 'i'], ['A', 'B', 'C']] 1 ['A', 'B', 'C'] rfl (by decide)).1

/-- Instance of C10: the phrases `["", "A"]`, three calls. -/
theorem type_empty_phrase_witness :
    TypingAnimation.run 3
        { textContent := ['x'], texts := [[], ['A']], speed := 100, textIndex := 0
          charIndex := 0, isDeleting := false }
      = Except.ok
          ({ textContent := [], texts := [[], ['A']], speed := 100, textIndex := 0
             charIndex := 3, isDeleting := false },
           List.replicate 3 { textContent := [], delay := 100 }) :=
  (type_empty_phrase ['x'] [[], ['A']] 0 rfl 3 (by decide)).1

end Portfolio
